import Mathlib

/-!
Verification of `usbreset.c` (sms_gateway): a one-shot command-line utility
that opens a USB device node, issues the `USBDEVFS_RESET` ioctl on it,
closes the handle, and reports the outcome.

The program is embedded shallowly.  The operating system is modelled as an
oracle (`OSBehavior`) that fixes, for the single run, the return value of
each of the three system calls the program can make (`open`, `ioctl`,
`close`) together with the value held by the C `errno` variable immediately
after each call returns, and the `strerror` table mapping errno values to
descriptions.  `main` is a pure function from that oracle and the argument
vector to a `ProcResult`: the exit status, the lines written to stdout and
stderr, and the trace of system calls issued, in order.
-/

namespace Usbreset

/-- Access mode passed to `open(2)`; the source uses `O_WRONLY`. -/
inductive OpenMode where
  | rdonly
  | wronly
  | rdwr
deriving DecidableEq, Repr

/-- A system call issued by the program, recorded in program order. -/
inductive Event where
  | openEv (path : String) (mode : OpenMode)
  | ioctlEv (fd : Int) (request : Nat) (arg : Nat)
  | closeEv (fd : Int)
deriving DecidableEq, Repr

/-- Holds exactly on `close` events. -/
def Event.isClose : Event → Bool
  | .closeEv _ => true
  | _ => false

/-- Holds exactly on `ioctl` events. -/
def Event.isIoctl : Event → Bool
  | .ioctlEv _ _ _ => true
  | _ => false

/-- Holds exactly on `open` events. -/
def Event.isOpen : Event → Bool
  | .openEv _ _ => true
  | _ => false

/-- The OS oracle for one run: return value of each syscall the program can
make, the value of `errno` observed right after each syscall returns, and
the `strerror` table.  (A failed syscall sets `errno`; a later call may
overwrite it — the oracle records whatever `errno` holds after each call.) -/
structure OSBehavior where
  openRet : Int
  openErrno : Nat
  ioctlRet : Int
  ioctlErrno : Nat
  closeRet : Int
  closeErrno : Nat
  strerror : Nat → String

/-- Observable outcome of a run: exit status, lines written to each stream
(without trailing newline), and the syscall trace in program order. -/
structure ProcResult where
  exitCode : Nat
  stdout : List String
  stderr : List String
  events : List Event
deriving Repr

/-- Request code used for the reset ioctl, mirroring the preprocessor
fallback `#ifndef USBDEVFS_RESET / #define USBDEVFS_RESET 21780`: it is the
platform-defined constant when the platform header defines one, and the
literal `21780` otherwise. -/
def USBDEVFS_RESET (platformDef : Option Nat) : Nat :=
  match platformDef with
  | some v => v
  | none => 21780

/-- Shallow embedding of `main` from `usbreset.c`.  `progName` is `argv[0]`
and `args` the positional arguments, so `argc = 1 + args.length` and the C
test `argc != 2` is `args.length ≠ 1`. -/
def main (platformDef : Option Nat) (os : OSBehavior)
    (progName : String) (args : List String) : ProcResult :=
  match args with
  | [device_path] =>
    let fd := os.openRet
    if fd < 0 then
      { exitCode := 1
        stdout := []
        stderr := ["Error opening device " ++ device_path ++ ": " ++
                   os.strerror os.openErrno]
        events := [Event.openEv device_path OpenMode.wronly] }
    else
      let result := os.ioctlRet
      let trace := [Event.openEv device_path OpenMode.wronly,
                    Event.ioctlEv fd (USBDEVFS_RESET platformDef) 0,
                    Event.closeEv fd]
      if result < 0 then
        { exitCode := 1
          stdout := []
          stderr := ["Error resetting device " ++ device_path ++ ": " ++
                     os.strerror os.closeErrno]
          events := trace }
      else
        { exitCode := 0
          stdout := ["USB device " ++ device_path ++ " reset successfully"]
          stderr := []
          events := trace }
  | _ =>
    { exitCode := 1
      stdout := []
      stderr := ["Usage: " ++ progName ++ " <usb_device_path>"]
      events := [] }

/-- The string `t` occurs as a contiguous substring of `s`. -/
def strContains (s t : String) : Prop := t.data <:+: s.data

instance (s t : String) : Decidable (strContains s t) :=
  List.decidableInfix t.data s.data

/-- If `s = a ++ t ++ b` then `t` is a substring of `s`. -/
theorem strContains_append (a t b : String) : strContains (a ++ t ++ b) t := by
  refine ⟨a.data, b.data, ?_⟩
  simp [String.data_append]

/-- Substring extraction for the four-part concatenations used by the
program's messages: the second part is contained. -/
theorem strContains_append4_second (a t b c : String) :
    strContains (a ++ t ++ b ++ c) t := by
  refine ⟨a.data, b.data ++ c.data, ?_⟩
  simp [String.data_append]

/-- Substring extraction for the four-part concatenations used by the
program's messages: the last part is contained. -/
theorem strContains_append4_last (a t b c : String) :
    strContains (a ++ t ++ b ++ c) c := by
  refine ⟨a.data ++ t.data ++ b.data, [], ?_⟩
  simp [String.data_append]

/-- A string contains its second summand as a substring. -/
theorem strContains_append_right (a t : String) : strContains (a ++ t) t := by
  refine ⟨a.data, [], ?_⟩
  simp [String.data_append]

/-- Substring containment is transitive. -/
theorem strContains_trans {s t u : String} (h1 : strContains s t)
    (h2 : strContains t u) : strContains s u :=
  List.IsInfix.trans h2 h1

/-- Concrete OS behavior in which the open and the reset both succeed. -/
def osOk : OSBehavior :=
  { openRet := 3, openErrno := 0, ioctlRet := 0, ioctlErrno := 0,
    closeRet := 0, closeErrno := 0, strerror := fun _ => "Success" }

/-- Concrete OS behavior in which the open fails with `ENOENT` (2). -/
def osNoEnt : OSBehavior :=
  { openRet := -1, openErrno := 2, ioctlRet := 0, ioctlErrno := 2,
    closeRet := 0, closeErrno := 2,
    strerror := fun n => if n = 2 then "No such file or directory"
                         else "Unknown error" }

/-- Concrete OS behavior in which the open succeeds, the reset ioctl fails
with `ENODEV` (19), and the subsequent close fails with `EIO` (5),
overwriting `errno` before the error report is produced. -/
def osResetFail : OSBehavior :=
  { openRet := 3, openErrno := 0, ioctlRet := -1, ioctlErrno := 19,
    closeRet := -1, closeErrno := 5,
    strerror := fun n =>
      if n = 19 then "No such device"
      else if n = 5 then "Input/output error"
      else "Unknown error" }

/-- Concrete OS behavior in which the open succeeds, the reset ioctl fails
with `ENODEV` (19), and the close succeeds leaving `errno` untouched. -/
def osResetFailKeep : OSBehavior :=
  { osResetFail with closeRet := 0, closeErrno := 19 }

/-- C1: with exactly one argument, a successful open and a successful reset
request, the program exits with status 0, writes exactly the one
confirmation line naming the device path to stdout, and writes nothing to
stderr. -/
theorem C1_success_path (platformDef : Option Nat) (os : OSBehavior)
    (prog p : String) (hopen : 0 ≤ os.openRet) (hioctl : 0 ≤ os.ioctlRet) :
    (main platformDef os prog [p]).exitCode = 0 ∧
    (main platformDef os prog [p]).stdout =
      ["USB device " ++ p ++ " reset successfully"] ∧
    (main platformDef os prog [p]).stderr = [] := by
  simp [main, not_lt.mpr hopen, not_lt.mpr hioctl]

/-- Witness for C1 at the spec's scenario input. -/
theorem C1_success_path_witness :
    (main (some 21780) osOk "usbreset" ["/dev/bus/usb/001/002"]).exitCode = 0 ∧
    (main (some 21780) osOk "usbreset" ["/dev/bus/usb/001/002"]).stdout =
      ["USB device /dev/bus/usb/001/002 reset successfully"] ∧
    (main (some 21780) osOk "usbreset" ["/dev/bus/usb/001/002"]).stderr = [] := by
  exact C1_success_path (some 21780) osOk "usbreset" "/dev/bus/usb/001/002"
    (by decide) (by decide)

/-- C2: with a number of positional arguments other than one, the program
writes a single usage line to stderr that names the invoked command and the
expected `<usb_device_path>` argument, exits with status 1, writes nothing
to stdout and makes no system call (no open, no reset). -/
theorem C2_usage_error (platformDef : Option Nat) (os : OSBehavior)
    (prog : String) (args : List String) (h : args.length ≠ 1) :
    (main platformDef os prog args).exitCode = 1 ∧
    (main platformDef os prog args).stderr =
      ["Usage: " ++ prog ++ " <usb_device_path>"] ∧
    strContains ("Usage: " ++ prog ++ " <usb_device_path>") prog ∧
    strContains ("Usage: " ++ prog ++ " <usb_device_path>") "<usb_device_path>" ∧
    (main platformDef os prog args).stdout = [] ∧
    (main platformDef os prog args).events = [] := by
  have hc1 : strContains ("Usage: " ++ prog ++ " <usb_device_path>") prog :=
    strContains_append "Usage: " prog " <usb_device_path>"
  have hc2 : strContains ("Usage: " ++ prog ++ " <usb_device_path>")
      "<usb_device_path>" :=
    strContains_trans (strContains_append_right ("Usage: " ++ prog)
      " <usb_device_path>") (by decide)
  match args with
  | [] => exact ⟨rfl, rfl, hc1, hc2, rfl, rfl⟩
  | [a] => exact absurd rfl h
  | a :: b :: rest => exact ⟨rfl, rfl, hc1, hc2, rfl, rfl⟩

/-- Witness for C2 with zero positional arguments. -/
theorem C2_usage_error_witness :
    (main (some 21780) osOk "usbreset" []).exitCode = 1 ∧
    (main (some 21780) osOk "usbreset" []).stderr =
      ["Usage: " ++ "usbreset" ++ " <usb_device_path>"] ∧
    strContains ("Usage: " ++ "usbreset" ++ " <usb_device_path>") "usbreset" ∧
    strContains ("Usage: " ++ "usbreset" ++ " <usb_device_path>")
      "<usb_device_path>" ∧
    (main (some 21780) osOk "usbreset" []).stdout = [] ∧
    (main (some 21780) osOk "usbreset" []).events = [] := by
  exact C2_usage_error (some 21780) osOk "usbreset" [] (by decide)

/-- C3: with exactly one argument whose open fails, the program writes
exactly one error line to stderr containing both the device path and the OS
error description for the errno left by the failed open, exits with status
1, and issues no reset request (the trace holds the failed open only). -/
theorem C3_open_failure (platformDef : Option Nat) (os : OSBehavior)
    (prog p : String) (hopen : os.openRet < 0) :
    (main platformDef os prog [p]).exitCode = 1 ∧
    (main platformDef os prog [p]).stderr =
      ["Error opening device " ++ p ++ ": " ++ os.strerror os.openErrno] ∧
    strContains ("Error opening device " ++ p ++ ": " ++
      os.strerror os.openErrno) p ∧
    strContains ("Error opening device " ++ p ++ ": " ++
      os.strerror os.openErrno) (os.strerror os.openErrno) ∧
    (main platformDef os prog [p]).stdout = [] ∧
    (main platformDef os prog [p]).events =
      [Event.openEv p OpenMode.wronly] := by
  refine ⟨?_, ?_, strContains_append4_second _ _ _ _,
    strContains_append4_last _ _ _ _, ?_, ?_⟩ <;>
    simp [main, hopen]

/-- Witness for C3 at a non-existent device path. -/
theorem C3_open_failure_witness :
    (main (some 21780) osNoEnt "usbreset" ["/dev/bus/usb/999/999"]).exitCode = 1 ∧
    (main (some 21780) osNoEnt "usbreset" ["/dev/bus/usb/999/999"]).stderr =
      ["Error opening device " ++ "/dev/bus/usb/999/999" ++ ": " ++
       osNoEnt.strerror osNoEnt.openErrno] ∧
    strContains ("Error opening device " ++ "/dev/bus/usb/999/999" ++ ": " ++
      osNoEnt.strerror osNoEnt.openErrno) "/dev/bus/usb/999/999" ∧
    strContains ("Error opening device " ++ "/dev/bus/usb/999/999" ++ ": " ++
      osNoEnt.strerror osNoEnt.openErrno)
      (osNoEnt.strerror osNoEnt.openErrno) ∧
    (main (some 21780) osNoEnt "usbreset" ["/dev/bus/usb/999/999"]).stdout = [] ∧
    (main (some 21780) osNoEnt "usbreset" ["/dev/bus/usb/999/999"]).events =
      [Event.openEv "/dev/bus/usb/999/999" OpenMode.wronly] := by
  exact C3_open_failure (some 21780) osNoEnt "usbreset" "/dev/bus/usb/999/999"
    (by decide)

/-- C4: on every run where the open succeeds, the syscall trace holds
exactly one close event, on the reset-success and reset-failure paths
alike, and it closes the very descriptor the open returned. -/
theorem C4_close_exactly_once (platformDef : Option Nat) (os : OSBehavior)
    (prog p : String) (hopen : 0 ≤ os.openRet) :
    ((main platformDef os prog [p]).events.countP
      (fun e => e.isClose)) = 1 ∧
    ((main platformDef os prog [p]).events.count
      (Event.closeEv os.openRet)) = 1 := by
  constructor <;>
  · simp only [main, not_lt.mpr hopen, if_false]
    split <;> simp [List.countP_cons, List.count_cons, Event.isClose]

/-- Witness for C4 on a reset-failure run. -/
theorem C4_close_exactly_once_witness :
    ((main (some 21780) osResetFail "usbreset" ["/dev/bus/usb/001/002"]).events.countP
      (fun e => e.isClose)) = 1 ∧
    ((main (some 21780) osResetFail "usbreset" ["/dev/bus/usb/001/002"]).events.count
      (Event.closeEv osResetFail.openRet)) = 1 := by
  exact C4_close_exactly_once (some 21780) osResetFail "usbreset"
    "/dev/bus/usb/001/002" (by decide)

/-- C8: with exactly one argument, the first system call of every run is an
open of the given path in write-only mode. -/
theorem C8_open_write_only (platformDef : Option Nat) (os : OSBehavior)
    (prog p : String) :
    (main platformDef os prog [p]).events.head? =
      some (Event.openEv p OpenMode.wronly) := by
  simp only [main]
  split
  · rfl
  · split <;> rfl

/-- C5 counterexample: the claim says the reset-failure error line contains
the OS error description of the failed reset request, but the program reads
`errno` only after the intervening `close`; when the close fails and
overwrites `errno` (here reset fails with `ENODEV` 19, close fails with
`EIO` 5), no stderr line contains the reset request's own error
description. -/
theorem C5_reset_failure_counterexample :
    (main (some 21780) osResetFail "usbreset" ["/dev/bus/usb/001/002"]).exitCode
      = 1 ∧
    ∀ line ∈ (main (some 21780) osResetFail "usbreset"
        ["/dev/bus/usb/001/002"]).stderr,
      ¬ strContains line (osResetFail.strerror osResetFail.ioctlErrno) := by
  constructor
  · rfl
  · decide

/-- C5 (amended): with a successful open and a failed reset request, the
program exits with status 1, writes no confirmation to stdout, and writes
one error line to stderr containing the device path and the OS error
description for the errno value observed after the intervening close; that
description is the failed reset request's own whenever the close leaves
errno unchanged.  The handle is still closed exactly once before exit. -/
theorem C5_reset_failure (platformDef : Option Nat) (os : OSBehavior)
    (prog p : String) (hopen : 0 ≤ os.openRet) (hioctl : os.ioctlRet < 0) :
    (main platformDef os prog [p]).exitCode = 1 ∧
    (main platformDef os prog [p]).stdout = [] ∧
    (main platformDef os prog [p]).stderr =
      ["Error resetting device " ++ p ++ ": " ++ os.strerror os.closeErrno] ∧
    strContains ("Error resetting device " ++ p ++ ": " ++
      os.strerror os.closeErrno) p ∧
    strContains ("Error resetting device " ++ p ++ ": " ++
      os.strerror os.closeErrno) (os.strerror os.closeErrno) ∧
    (os.closeErrno = os.ioctlErrno →
      strContains ("Error resetting device " ++ p ++ ": " ++
        os.strerror os.closeErrno) (os.strerror os.ioctlErrno)) ∧
    ((main platformDef os prog [p]).events.countP
      (fun e => e.isClose)) = 1 := by
  refine ⟨?_, ?_, ?_, strContains_append4_second _ _ _ _,
    strContains_append4_last _ _ _ _, ?_, ?_⟩
  · simp [main, not_lt.mpr hopen, hioctl]
  · simp [main, not_lt.mpr hopen, hioctl]
  · simp [main, not_lt.mpr hopen, hioctl]
  · intro he
    rw [← he]
    exact strContains_append4_last _ _ _ _
  · simp only [main, not_lt.mpr hopen, if_false, if_pos hioctl]
    simp [List.countP_cons, Event.isClose]

/-- Witness for the amended C5 on a run whose close leaves errno
unchanged. -/
theorem C5_reset_failure_witness :
    (main (some 21780) osResetFailKeep "usbreset"
      ["/dev/bus/usb/001/002"]).exitCode = 1 ∧
    (main (some 21780) osResetFailKeep "usbreset"
      ["/dev/bus/usb/001/002"]).stdout = [] ∧
    (main (some 21780) osResetFailKeep "usbreset"
      ["/dev/bus/usb/001/002"]).stderr =
      ["Error resetting device " ++ "/dev/bus/usb/001/002" ++ ": " ++
       osResetFailKeep.strerror osResetFailKeep.closeErrno] ∧
    strContains ("Error resetting device " ++ "/dev/bus/usb/001/002" ++ ": " ++
      osResetFailKeep.strerror osResetFailKeep.closeErrno)
      "/dev/bus/usb/001/002" ∧
    strContains ("Error resetting device " ++ "/dev/bus/usb/001/002" ++ ": " ++
      osResetFailKeep.strerror osResetFailKeep.closeErrno)
      (osResetFailKeep.strerror osResetFailKeep.closeErrno) ∧
    (osResetFailKeep.closeErrno = osResetFailKeep.ioctlErrno →
      strContains ("Error resetting device " ++ "/dev/bus/usb/001/002" ++ ": " ++
        osResetFailKeep.strerror osResetFailKeep.closeErrno)
        (osResetFailKeep.strerror osResetFailKeep.ioctlErrno)) ∧
    ((main (some 21780) osResetFailKeep "usbreset"
      ["/dev/bus/usb/001/002"]).events.countP (fun e => e.isClose)) = 1 := by
  exact C5_reset_failure (some 21780) osResetFailKeep "usbreset"
    "/dev/bus/usb/001/002" (by decide) (by decide)

/-- C6: the exit status is 0 exactly when the argument count is right, the
open succeeds and the reset request succeeds, and 1 in every other case:
wrong argument count, open failure and reset failure all map to the same
code 1. -/
theorem C6_exit_codes (platformDef : Option Nat) (os : OSBehavior)
    (prog : String) (args : List String) :
    (main platformDef os prog args).exitCode =
      if args.length = 1 ∧ 0 ≤ os.openRet ∧ 0 ≤ os.ioctlRet then 0
      else 1 := by
  match args with
  | [] => simp [main]
  | [p] =>
    by_cases h1 : os.openRet < 0
    · simp [main, h1, not_le.mpr h1]
    · by_cases h2 : os.ioctlRet < 0
      · simp [main, h1, h2, not_le.mpr h2]
      · simp [main, h1, h2, not_lt.mp h1, not_lt.mp h2]
  | p :: q :: rest => simp [main]

/-- C7: whenever the open succeeds, the trace holds exactly one ioctl: a
single control request on the descriptor the open returned, with request
code `USBDEVFS_RESET` and auxiliary argument 0; that request code is the
platform-supplied constant when the platform defines one and 21780 only
otherwise. -/
theorem C7_reset_request_code (platformDef : Option Nat) (os : OSBehavior)
    (prog p : String) (hopen : 0 ≤ os.openRet) :
    (main platformDef os prog [p]).events.filter (fun e => e.isIoctl) =
      [Event.ioctlEv os.openRet (USBDEVFS_RESET platformDef) 0] ∧
    (∀ v, USBDEVFS_RESET (some v) = v) ∧
    USBDEVFS_RESET none = 21780 := by
  refine ⟨?_, fun v => rfl, rfl⟩
  simp only [main, not_lt.mpr hopen, if_false]
  split <;> simp [List.filter, Event.isIoctl]

/-- Witness for C7 on a successful run. -/
theorem C7_reset_request_code_witness :
    (main (some 21780) osOk "usbreset"
      ["/dev/bus/usb/001/002"]).events.filter (fun e => e.isIoctl) =
      [Event.ioctlEv osOk.openRet (USBDEVFS_RESET (some 21780)) 0] ∧
    (∀ v, USBDEVFS_RESET (some v) = v) ∧
    USBDEVFS_RESET none = 21780 := by
  exact C7_reset_request_code (some 21780) osOk "usbreset"
    "/dev/bus/usb/001/002" (by decide)

/-- C9: whenever the open succeeds the trace is exactly open, ioctl, close
in that order — the handle is closed after the reset request returns and
before the result is inspected or reported — and on the reset-failure path
the stderr description is `strerror` of the errno value observed after the
close, not of the errno the failed ioctl itself left. -/
theorem C9_close_before_report (platformDef : Option Nat) (os : OSBehavior)
    (prog p : String) (hopen : 0 ≤ os.openRet) :
    (main platformDef os prog [p]).events =
      [Event.openEv p OpenMode.wronly,
       Event.ioctlEv os.openRet (USBDEVFS_RESET platformDef) 0,
       Event.closeEv os.openRet] ∧
    (os.ioctlRet < 0 →
      (main platformDef os prog [p]).stderr =
        ["Error resetting device " ++ p ++ ": " ++
         os.strerror os.closeErrno]) := by
  constructor
  · simp only [main, not_lt.mpr hopen, if_false]
    split <;> rfl
  · intro h2
    simp [main, not_lt.mpr hopen, h2]

/-- Witness for C9 on the errno-clobbering reset-failure run. -/
theorem C9_close_before_report_witness :
    (main (some 21780) osResetFail "usbreset" ["/dev/bus/usb/001/002"]).events =
      [Event.openEv "/dev/bus/usb/001/002" OpenMode.wronly,
       Event.ioctlEv osResetFail.openRet (USBDEVFS_RESET (some 21780)) 0,
       Event.closeEv osResetFail.openRet] ∧
    (osResetFail.ioctlRet < 0 →
      (main (some 21780) osResetFail "usbreset"
        ["/dev/bus/usb/001/002"]).stderr =
        ["Error resetting device " ++ "/dev/bus/usb/001/002" ++ ": " ++
         osResetFail.strerror osResetFail.closeErrno]) := by
  exact C9_close_before_report (some 21780) osResetFail "usbreset"
    "/dev/bus/usb/001/002" (by decide)

/-- C10 counterexample: the claim says all output is determined solely by
the argument count, the open result and the reset-request result.  Here two
OS behaviors agree on the open and ioctl results (return values and errno)
and on the `strerror` table, and differ only in what the close call does —
in `osResetFailKeep` it succeeds leaving errno at 19, in `osResetFail` it
fails setting errno to 5 — yet the stderr output differs. -/
theorem C10_close_ignored_counterexample :
    osResetFailKeep.openRet = osResetFail.openRet ∧
    osResetFailKeep.openErrno = osResetFail.openErrno ∧
    osResetFailKeep.ioctlRet = osResetFail.ioctlRet ∧
    osResetFailKeep.ioctlErrno = osResetFail.ioctlErrno ∧
    osResetFailKeep.strerror = osResetFail.strerror ∧
    (main (some 21780) osResetFailKeep "usbreset"
      ["/dev/bus/usb/001/002"]).stderr ≠
    (main (some 21780) osResetFail "usbreset"
      ["/dev/bus/usb/001/002"]).stderr := by
  refine ⟨rfl, rfl, rfl, rfl, rfl, ?_⟩
  decide

/-- C10 (amended): the return value of close is never inspected — changing
it alone changes nothing in the result; the exit status and the standard
output are determined solely by the argument count, the open result and the
reset-request result, so a failing close never changes the exit status
(still 0 when the reset succeeded) and never produces an additional
message; but when the reset request failed, the errno value left after the
close selects the error description in the stderr text, and whenever the
reset request succeeded the close outcome is entirely irrelevant to the
result. -/
theorem C10_close_result_ignored (platformDef : Option Nat) (os : OSBehavior)
    (c : Int) (e : Nat) (prog : String) (args : List String) :
    main platformDef { os with closeRet := c } prog args =
      main platformDef os prog args ∧
    (main platformDef { os with closeRet := c, closeErrno := e } prog
      args).exitCode = (main platformDef os prog args).exitCode ∧
    (main platformDef { os with closeRet := c, closeErrno := e } prog
      args).stdout = (main platformDef os prog args).stdout ∧
    (0 ≤ os.ioctlRet →
      main platformDef { os with closeRet := c, closeErrno := e } prog args =
        main platformDef os prog args) := by
  match args with
  | [] => exact ⟨rfl, rfl, rfl, fun _ => rfl⟩
  | [p] =>
    by_cases h1 : os.openRet < 0
    · refine ⟨?_, ?_, ?_, fun _ => ?_⟩ <;> simp [main, h1]
    · by_cases h2 : os.ioctlRet < 0
      · refine ⟨?_, ?_, ?_, fun h => absurd h2 (not_lt.mpr h)⟩ <;>
          simp [main, h1, h2]
      · refine ⟨?_, ?_, ?_, fun _ => ?_⟩ <;> simp [main, h1, h2]
  | p :: q :: rest => exact ⟨rfl, rfl, rfl, fun _ => rfl⟩

/-- Witness for the amended C10 on a successful run. -/
theorem C10_close_result_ignored_witness :
    main (some 21780) { osOk with closeRet := -1 } "usbreset"
      ["/dev/bus/usb/001/002"] =
      main (some 21780) osOk "usbreset" ["/dev/bus/usb/001/002"] ∧
    (main (some 21780) { osOk with closeRet := -1, closeErrno := 9 }
      "usbreset" ["/dev/bus/usb/001/002"]).exitCode =
      (main (some 21780) osOk "usbreset" ["/dev/bus/usb/001/002"]).exitCode ∧
    (main (some 21780) { osOk with closeRet := -1, closeErrno := 9 }
      "usbreset" ["/dev/bus/usb/001/002"]).stdout =
      (main (some 21780) osOk "usbreset" ["/dev/bus/usb/001/002"]).stdout ∧
    (0 ≤ osOk.ioctlRet →
      main (some 21780) { osOk with closeRet := -1, closeErrno := 9 }
        "usbreset" ["/dev/bus/usb/001/002"] =
        main (some 21780) osOk "usbreset" ["/dev/bus/usb/001/002"]) := by
  exact C10_close_result_ignored (some 21780) osOk (-1) 9 "usbreset"
    ["/dev/bus/usb/001/002"]

end Usbreset

